import Mathlib

/-
Verification of the SignWave room-synchronization code.

The definitions below are a shallow embedding of the TypeScript source:
  * the `Room` record of `lib/types` (part_010),
  * the room REST routes: `POST /api/room` (creation) and
    `PUT /api/room/[roomCode]` (blind field update) from part_005, and
    `POST /api/room/[roomCode]/join` from `app/api/room/[roomCode]/join/route.ts`,
  * the client-side competition page logic: `checkAnswer`, `handleSkip`,
    `handleGiveUp`, `startGame`, the problem generators and the winner
    display, in its two variants
    (`app/(router)/games/asl-competition/page.tsx`, here suffixed `Main`
    or unsuffixed, and the part_001 revision, suffixed `V2`).

Randomness (problem generation) is modelled by passing the random draws
as explicit `Fin` indices.  Client writes go over the wire as JSON
bodies; `JSON.stringify` drops properties whose value is `undefined`,
so a patch field models exactly the keys present in the request body,
and the server `updateDoc` merge leaves absent fields unchanged.
-/

inductive ProblemType
  | alphabet
  | number
  | word
  deriving DecidableEq

/-- Answer values are JS `string | number`; `number` answers in this code are
integers, so they are embedded as `Int`. -/
inductive Answer
  | str (s : String)
  | num (n : Int)
  deriving DecidableEq

structure Problem where
  type : ProblemType
  question : String
  answer : Answer
  deriving DecidableEq

/-- Room record, following the `Room` interface in `lib/types` (part_010).
`id` and `created_at` are store-assigned metadata. -/
structure Room where
  id : String
  room_code : String
  host_id : String
  guest_id : String
  is_started : Bool
  is_finished : Bool
  host_score : Int
  guest_score : Int
  host_name : String
  guest_name : String
  host_skipped : Bool
  guest_skipped : Bool
  host_given_up : Bool
  guest_given_up : Bool
  goal_score : Int
  current_problem : Option Problem
  last_solved_by : Option String
  created_at : String
  deriving DecidableEq

/-- The JSON body of a `PUT /api/room/[roomCode]` request, as produced by the
client `updateRoom` calls.  A `none` field is a key absent from the body
(recall that `JSON.stringify` drops `undefined`-valued properties). -/
structure RoomPatch where
  is_started : Option Bool := none
  is_finished : Option Bool := none
  host_score : Option Int := none
  guest_score : Option Int := none
  host_skipped : Option Bool := none
  guest_skipped : Option Bool := none
  host_given_up : Option Bool := none
  guest_given_up : Option Bool := none
  current_problem : Option Problem := none
  last_solved_by : Option String := none
  deriving DecidableEq

/-- The `PUT` handler of part_005: it looks the room up by code and runs
`updateDoc(roomRef, { ...body, updated_at: Timestamp.now() })` with no
validation whatsoever — every field present in the body is written as-is,
regardless of the room state.  (The extra `updated_at` column is not part of
the `Room` interface and is not modelled.) -/
def applyPut (r : Room) (p : RoomPatch) : Room :=
  { r with
    is_started := p.is_started.getD r.is_started,
    is_finished := p.is_finished.getD r.is_finished,
    host_score := p.host_score.getD r.host_score,
    guest_score := p.guest_score.getD r.guest_score,
    host_skipped := p.host_skipped.getD r.host_skipped,
    guest_skipped := p.guest_skipped.getD r.guest_skipped,
    host_given_up := p.host_given_up.getD r.host_given_up,
    guest_given_up := p.guest_given_up.getD r.guest_given_up,
    current_problem := (p.current_problem.map some).getD r.current_problem,
    last_solved_by := (p.last_solved_by.map some).getD r.last_solved_by }

/-- Apply a client write when the client decided to send one (`some patch`),
and leave the store untouched when the client bailed out (`none`). -/
def applyMaybe (r : Room) : Option RoomPatch → Room
  | none => r
  | some p => applyPut r p

/-- JS `String.prototype.toUpperCase` on the ASCII strings this code handles:
upper-case every character. -/
def jsToUpper (s : String) : String := String.mk (s.toList.map Char.toUpper)

/-- JS `String.prototype.toLowerCase` on the ASCII strings this code handles:
lower-case every character. -/
def jsToLower (s : String) : String := String.mk (s.toList.map Char.toLower)

/-- JS `String.prototype.trim`: strip whitespace from both ends. -/
def jsTrim (s : String) : String :=
  String.mk (((s.toList.dropWhile Char.isWhitespace).reverse.dropWhile
    Char.isWhitespace).reverse)

/-- JS strict equality `===` restricted to `string | number` values: values of
different runtime type never compare equal; same-type values compare exactly. -/
def jsStrictEq : Answer → Answer → Bool
  | .str a, .str b => a == b
  | .num a, .num b => a == b
  | _, _ => false

/-- The comparison of the part_001 `checkAnswer`:
`detected.toLowerCase().trim() === answer.toLowerCase().trim()` when both
sides are strings, plain `===` otherwise. -/
def normalizedMatch : Answer → Answer → Bool
  | .str d, .str a => jsTrim (jsToLower d) == jsTrim (jsToLower a)
  | d, a => jsStrictEq d a

/-- The scoring write built by `checkAnswer` once the detected value matched:
bump the submitting player's own score, recompute `is_finished` locally,
attach a fresh problem unless the game just finished (in which case
`current_problem: undefined` is dropped from the JSON body), and record
`last_solved_by`.  Identical in both page variants. -/
def scoringPatch (r : Room) (userId : String) (newProblem : Problem) : RoomPatch :=
  let isHostUser := r.host_id = userId
  let newHostScore := if isHostUser then r.host_score + 1 else r.host_score
  let newGuestScore := if isHostUser then r.guest_score else r.guest_score + 1
  let gameFinished : Bool :=
    decide (newHostScore ≥ r.goal_score) || decide (newGuestScore ≥ r.goal_score)
  { host_score := if isHostUser then some newHostScore else none,
    guest_score := if isHostUser then none else some newGuestScore,
    is_finished := some gameFinished,
    current_problem := if gameFinished then none else some newProblem,
    last_solved_by := some userId }

/-- The `checkAnswer` of `asl-competition/page.tsx`: guards only on the
client's local snapshot (`room`) and local `justAnswered` lock, compares with
strict `===`, and on a match issues the scoring `PUT` body.  Returns the
request body sent, or `none` when no write happens. -/
def checkAnswerPatch (r : Room) (justAnswered : Bool) (userId : String)
    (detected : Answer) (newProblem : Problem) : Option RoomPatch :=
  match r.current_problem with
  | none => none
  | some currentProblem =>
    if justAnswered || !r.is_started || r.is_finished then none
    else if jsStrictEq detected currentProblem.answer then
      some (scoringPatch r userId newProblem)
    else none

/-- The `checkAnswer` of the part_001 revision: same guards and same scoring
write, but strings are compared lower-cased and trimmed. -/
def checkAnswerPatchV2 (r : Room) (justAnswered : Bool) (userId : String)
    (detected : Answer) (newProblem : Problem) : Option RoomPatch :=
  match r.current_problem with
  | none => none
  | some currentProblem =>
    if justAnswered || !r.is_started || r.is_finished then none
    else if normalizedMatch detected currentProblem.answer then
      some (scoringPatch r userId newProblem)
    else none

/-- The `handleSkip` request body.  Both page variants serialize to the same
JSON: the part_001 variant also writes `last_solved_by: undefined`, but
`JSON.stringify` drops that key, so neither variant's body carries
`last_solved_by`. -/
def skipPatch (isHostUser : Bool) (newProblem : Problem) : RoomPatch :=
  { host_skipped := if isHostUser then some true else none,
    guest_skipped := if isHostUser then none else some true,
    current_problem := some newProblem }

/-- The `handleGiveUp` request body. -/
def giveUpPatch (isHostUser : Bool) : RoomPatch :=
  { host_given_up := if isHostUser then some true else none,
    guest_given_up := if isHostUser then none else some true,
    is_finished := some true }

/-- The `startGame` request body. -/
def startPatch (newProblem : Problem) : RoomPatch :=
  { is_started := some true, current_problem := some newProblem }

def ALPHABET : List Char := "ABCDEFGHIJKLMNOPQRSTUVWXYZ".toList

def BASIC_WORDS : List String :=
  ["HELLO", "THANK", "YOU", "YES", "NO", "PLEASE", "SORRY", "HELP", "WATER", "FOOD"]

/-- The 26 single-letter answer strings. -/
def LETTERS : List String := ALPHABET.map (fun c => String.mk [c])

/-- The `NUMBERS` constant of `asl-competition/page.tsx`. -/
def NUMBERS_MAIN : List Int := [1, 2, 3, 4, 5, 6, 7, 8, 9, 10]

/-- The `NUMBERS` constant of the part_001 revision. -/
def NUMBERS_V2 : List Int := [0, 1, 2, 3, 4, 5, 6, 7, 8, 9]

/-- `problemTypes[Math.floor(Math.random() * 3)]`; the draw is the argument. -/
def problemTypeAt (i : Fin 3) : ProblemType :=
  if i.val = 0 then .alphabet else if i.val = 1 then .number else .word

/-- Indexing `'ABCDEFGHIJKLMNOPQRSTUVWXYZ'[i]` (the index is always in range,
so the `getD` default is never used). -/
def letterAt (i : Fin 26) : String := String.mk [ALPHABET.getD i.val 'A']

def wordAt (i : Fin 10) : String := BASIC_WORDS.getD i.val "HELLO"

/-- The initial-problem generator inlined in `POST /api/room` (part_005):
note `Math.floor(Math.random() * 10) + 1` gives a number answer in 1..10. -/
def genProblemCreate (t : Fin 3) (li : Fin 26) (ni : Fin 10) (wi : Fin 10) : Problem :=
  match problemTypeAt t with
  | .alphabet =>
      let letter := letterAt li
      { type := .alphabet, question := "Sign the letter: " ++ letter, answer := .str letter }
  | .number =>
      let number : Int := (ni.val : Int) + 1
      { type := .number, question := "Sign the number: " ++ toString number,
        answer := .num number }
  | .word =>
      let word := wordAt wi
      { type := .word, question := "Sign the word: " ++ word, answer := .str word }

/-- `generateProblem` / `generateNewProblem` of `asl-competition/page.tsx`:
draws `NUMBERS[i]` from `[1..10]`. -/
def genProblemMain (t : Fin 3) (li : Fin 26) (ni : Fin 10) (wi : Fin 10) : Problem :=
  match problemTypeAt t with
  | .alphabet =>
      let letter := letterAt li
      { type := .alphabet, question := "Sign the letter: " ++ letter, answer := .str letter }
  | .number =>
      let number : Int := NUMBERS_MAIN.getD ni.val 0
      { type := .number, question := "Sign the number: " ++ toString number,
        answer := .num number }
  | .word =>
      let word := wordAt wi
      { type := .word, question := "Sign the word: " ++ word, answer := .str word }

/-- The part_001 generator: draws `NUMBERS[i]` from `[0..9]`. -/
def genProblemV2 (t : Fin 3) (li : Fin 26) (ni : Fin 10) (wi : Fin 10) : Problem :=
  match problemTypeAt t with
  | .alphabet =>
      let letter := letterAt li
      { type := .alphabet, question := "Sign the letter: " ++ letter, answer := .str letter }
  | .number =>
      let number : Int := NUMBERS_V2.getD ni.val 0
      { type := .number, question := "Sign the number: " ++ toString number,
        answer := .num number }
  | .word =>
      let word := wordAt wi
      { type := .word, question := "Sign the word: " ++ word, answer := .str word }

/-- Body of a `POST /api/room` request.  `none` stands for an absent or JSON
`null` property (both behave alike under the code's truthiness checks). -/
structure CreateReq where
  host_id : Option String
  host_name : Option String
  goal_score : Option Int
  room_code : Option String

inductive CreateResult
  | badRequest (msg : String)
  | conflict (msg : String)
  | created (room : Room)
  deriving DecidableEq

def CreateResult.status : CreateResult → Nat
  | .badRequest _ => 400
  | .conflict _ => 409
  | .created _ => 201

def CreateResult.goalScore : CreateResult → Option Int
  | .created r => some r.goal_score
  | _ => none

/-- The room-code format test `/^[A-Z0-9]{8}$/.test(roomCodeUpper)`:
8 characters, each an upper-case letter or digit. -/
def isValidRoomCode (s : String) : Bool :=
  s.length = 8 && s.toList.all (fun c => ('A' ≤ c && c ≤ 'Z') || ('0' ≤ c && c ≤ '9'))

/-- The `POST /api/room` handler of part_005.  Checks run in source order:
falsy `host_id` → 400; falsy `room_code` → 400; upper-cased code not matching
`/^[A-Z0-9]{8}$/` → 400; code already present → 409; then
`finalGoalScore = goal_score || 10` must be an integer `≥ 1` → else 400;
otherwise the room document is created.  `goal_score` arrives as a JSON
number that is an integer in every reachable request, so `Number.isInteger`
holds by construction in this embedding. -/
def createRoom (req : CreateReq) (existingCodes : List String)
    (t : Fin 3) (li : Fin 26) (ni : Fin 10) (wi : Fin 10)
    (newId now : String) : CreateResult :=
  if req.host_id.getD "" = "" then .badRequest "host_id is required"
  else if req.room_code.getD "" = "" then .badRequest "room_code is required"
  else
    let roomCodeUpper := jsToUpper (req.room_code.getD "")
    if !(isValidRoomCode roomCodeUpper) then
      .badRequest "room_code must be 8 alphanumeric characters"
    else if existingCodes.contains roomCodeUpper then
      .conflict "Room code already exists. Please generate a new one."
    else
      let finalGoalScore : Int :=
        match req.goal_score with
        | none => 10
        | some g => if g = 0 then 10 else g
      if finalGoalScore < 1 then .badRequest "goal_score must be a positive integer"
      else
        .created {
          id := newId,
          room_code := roomCodeUpper,
          host_id := req.host_id.getD "",
          guest_id := "",
          is_started := false,
          is_finished := false,
          host_score := 0,
          guest_score := 0,
          host_name := if req.host_name.getD "" = "" then "anonymous"
                       else req.host_name.getD "",
          guest_name := "",
          host_skipped := false,
          guest_skipped := false,
          host_given_up := false,
          guest_given_up := false,
          goal_score := finalGoalScore,
          current_problem := some (genProblemCreate t li ni wi),
          last_solved_by := none,
          created_at := now }

/-- The `POST /api/room/[roomCode]/join` handler, acting on the room found by
code (the not-found case is out of scope of the join claims).  Every failure
branch responds with HTTP 400 and performs no write; success writes only
`guest_id` and `guest_name` (defaulted to `'Guest'`) and responds 200. -/
def joinRoom (r : Room) (guest_id guest_name : String) : Nat × Room :=
  if guest_id = "" then (400, r)
  else if r.guest_id ≠ "" then (400, r)
  else if r.host_id = guest_id then (400, r)
  else if r.is_started then (400, r)
  else if r.is_finished then (400, r)
  else (200, { r with guest_id := guest_id,
                      guest_name := if guest_name = "" then "Guest" else guest_name })

inductive GameWinner
  | host
  | guest
  | tie
  deriving DecidableEq

/-- The winner shown by the Game Finished card of the competition page (both
variants): purely a score comparison, give-up flags are never consulted. -/
def winnerOf (r : Room) : GameWinner :=
  if r.guest_score < r.host_score then .host
  else if r.host_score < r.guest_score then .guest
  else .tie

/-- Classify a generated problem against a fixed answer set per category:
single letters for `alphabet`, a given integer list for `number`, the
vocabulary list for `word`. -/
def answerInCategory (nums : List Int) (p : Problem) : Bool :=
  match p.type, p.answer with
  | .alphabet, .str s => LETTERS.contains s
  | .number, .num n => nums.contains n
  | .word, .str s => BASIC_WORDS.contains s
  | _, _ => false

/-- Concrete sample problems for the scenario theorems. -/
def demoProblemA : Problem :=
  { type := .alphabet, question := "Sign the letter: A", answer := .str "A" }

def demoProblemB : Problem :=
  { type := .alphabet, question := "Sign the letter: B", answer := .str "B" }

def demoProblemHello : Problem :=
  { type := .word, question := "Sign the word: HELLO", answer := .str "HELLO" }

def demoProblemSeven : Problem :=
  { type := .number, question := "Sign the number: 7", answer := .num 7 }

/-- A started, unfinished two-player room holding problem `p`. -/
def activeRoom (p : Problem) : Room :=
  { id := "room-1", room_code := "ABCD1234", host_id := "host-1",
    guest_id := "guest-1", is_started := true, is_finished := false,
    host_score := 0, guest_score := 0, host_name := "Hosty",
    guest_name := "Guesty", host_skipped := false, guest_skipped := false,
    host_given_up := false, guest_given_up := false, goal_score := 5,
    current_problem := some p, last_solved_by := none, created_at := "t0" }

/-- A waiting room that already has a guest (full, not yet started). -/
def lobbyFullRoom : Room :=
  { activeRoom demoProblemA with is_started := false }

/-- Claim C1 (code bug): two concurrent correct submissions on the same
challenge instance.  Both clients read the same store state, both local
`checkAnswer` guards pass, both scoring `PUT` bodies are issued, and the
blind `updateDoc` of the PUT handler applies both in sequence: host score and
guest score each increase — two scoring events for one challenge instance,
and neither caller observes any `StaleProblem`-style rejection (no such
outcome exists in the code). -/
theorem c1_two_concurrent_correct_submissions_both_score :
    (checkAnswerPatch (activeRoom demoProblemA) false "host-1"
        (Answer.str "A") demoProblemB).isSome = true ∧
    (checkAnswerPatch (activeRoom demoProblemA) false "guest-1"
        (Answer.str "A") demoProblemHello).isSome = true ∧
    (applyMaybe (applyMaybe (activeRoom demoProblemA)
        (checkAnswerPatch (activeRoom demoProblemA) false "host-1"
          (Answer.str "A") demoProblemB))
        (checkAnswerPatch (activeRoom demoProblemA) false "guest-1"
          (Answer.str "A") demoProblemHello)).host_score = 1 ∧
    (applyMaybe (applyMaybe (activeRoom demoProblemA)
        (checkAnswerPatch (activeRoom demoProblemA) false "host-1"
          (Answer.str "A") demoProblemB))
        (checkAnswerPatch (activeRoom demoProblemA) false "guest-1"
          (Answer.str "A") demoProblemHello)).guest_score = 1 := by
  decide

/-- Claim C2 (code bug): a submission computed from a stale snapshot (the
store already holds a different `current_problem`) is not rejected: the
client compares only against its own snapshot, the PUT handler checks
nothing, and the stale submission increments the score. -/
theorem c2_stale_submission_still_scores :
    (activeRoom demoProblemB).current_problem ≠
      (activeRoom demoProblemA).current_problem ∧
    (checkAnswerPatch (activeRoom demoProblemA) false "host-1"
        (Answer.str "A") demoProblemHello).isSome = true ∧
    (applyMaybe (activeRoom demoProblemB)
        (checkAnswerPatch (activeRoom demoProblemA) false "host-1"
          (Answer.str "A") demoProblemHello)).host_score =
      (activeRoom demoProblemB).host_score + 1 := by
  decide

/-- The finished room of the C4 scenario: the host gave up while ahead on
score. -/
def c4room : Room :=
  { activeRoom demoProblemA with
    is_finished := true
    host_given_up := true
    host_score := 2
    guest_score := 1
    current_problem := none }

/-- Claim C4 (code bug): the Game Finished card computes the winner purely
from the scores; in a finished room where exactly the host gave up while
leading 2 to 1, the page still reports the host as winner, although the
give-up dialog itself announces that giving up means losing. -/
theorem c4_score_based_winner_ignores_give_up :
    c4room.is_finished = true ∧ c4room.host_given_up = true ∧
    c4room.guest_given_up = false ∧ winnerOf c4room = GameWinner.host := by
  decide

/-- Claim C5, counterexample: in the `asl-competition/page.tsx` variant of
`checkAnswer` the comparison is strict `===`, so the submission `"hello"` for
a word problem with answer `"HELLO"` is rejected (no write at all), while the
claim says it is accepted. -/
theorem c5_counterexample_lowercase_rejected :
    checkAnswerPatch (activeRoom demoProblemHello) false "host-1"
      (Answer.str "hello") demoProblemA = none := by
  decide

/-- Claim C5, amended: the part_001 `checkAnswer` compares string answers
lower-cased and trimmed — `"hello"` and `" Hello "` are accepted for answer
`"HELLO"` and the accepted write increments the score — and numbers exactly:
`7` is accepted for answer `7`, `8` is rejected; the `page.tsx` variant
accepts only the strict match `"HELLO"`. -/
theorem c5_v2_normalizes_main_is_strict :
    (checkAnswerPatchV2 (activeRoom demoProblemHello) false "host-1"
        (Answer.str "hello") demoProblemA).isSome = true ∧
    (checkAnswerPatchV2 (activeRoom demoProblemHello) false "host-1"
        (Answer.str " Hello ") demoProblemA).isSome = true ∧
    (applyMaybe (activeRoom demoProblemHello)
        (checkAnswerPatchV2 (activeRoom demoProblemHello) false "host-1"
          (Answer.str "hello") demoProblemA)).host_score = 1 ∧
    (checkAnswerPatchV2 (activeRoom demoProblemSeven) false "host-1"
        (Answer.num 7) demoProblemA).isSome = true ∧
    checkAnswerPatchV2 (activeRoom demoProblemSeven) false "host-1"
      (Answer.num 8) demoProblemA = none ∧
    (checkAnswerPatch (activeRoom demoProblemHello) false "host-1"
        (Answer.str "HELLO") demoProblemA).isSome = true := by
  decide

/-- Claim C6, counterexample: the problem generator inlined in room creation
draws number answers with `Math.floor(Math.random() * 10) + 1`; the draw with
index 9 yields the answer `10`, which is not an integer in 0..9 as claimed. -/
theorem c6_counterexample_number_answer_ten :
    (genProblemCreate 1 0 9 0).answer = Answer.num 10 ∧
    answerInCategory NUMBERS_V2 (genProblemCreate 1 0 9 0) = false := by
  decide

/-- Claim C6, amended: every generated problem has its answer in its
category's fixed set — one of the 26 letters for `alphabet`, a word from the
fixed vocabulary list for `word` — but the number set is 1..10 for the
creation generator and the `page.tsx` generator, and 0..9 only for the
part_001 generator. -/
theorem c6_generated_answers_in_fixed_sets
    (t : Fin 3) (li : Fin 26) (ni : Fin 10) (wi : Fin 10) :
    answerInCategory NUMBERS_MAIN (genProblemCreate t li ni wi) = true ∧
    answerInCategory NUMBERS_MAIN (genProblemMain t li ni wi) = true ∧
    answerInCategory NUMBERS_V2 (genProblemV2 t li ni wi) = true := by
  revert t li ni wi; decide

/-- The store state of the C3 counterexample: the guest reached the goal, so
the room is finished (the final scoring write drops `current_problem:
undefined` from its JSON body, which is why the old problem is still
present). -/
def c3finishedRoom : Room :=
  { activeRoom demoProblemA with
    is_finished := true
    guest_score := 5
    last_solved_by := some "guest-1" }

/-- The host client's stale snapshot of that room, read one poll earlier. -/
def c3staleSnapshot : Room :=
  { activeRoom demoProblemA with guest_score := 4 }

/-- Claim C3, counterexample: a correct answer submitted from a stale
snapshot of an already-finished room passes all client guards (the snapshot
still shows the game running), and the blind PUT then writes
`is_finished: false` over the finished room — `is_finished` is not
terminal, and the finished room is mutated. -/
theorem c3_counterexample_stale_write_unfinishes_room :
    c3finishedRoom.is_finished = true ∧
    (applyMaybe c3finishedRoom
      (checkAnswerPatch c3staleSnapshot false "host-1" (Answer.str "A")
        demoProblemB)).is_finished = false := by
  decide

/-- Claim C3, amended: the only finished-state protection is client-side —
`checkAnswer` (in both variants) performs no write when the room snapshot it
observes has `is_finished = true`; the PUT endpoint itself applies any patch
to any room regardless of `is_finished`. -/
theorem c3_finished_snapshot_blocks_client_answer
    (r : Room) (j : Bool) (u : String) (d : Answer) (np : Problem)
    (hfin : r.is_finished = true) :
    checkAnswerPatch r j u d np = none ∧ checkAnswerPatchV2 r j u d np = none := by
  cases hcp : r.current_problem <;>
    simp [checkAnswerPatch, checkAnswerPatchV2, hcp, hfin]

/-- Witness for the C3 amended theorem at a concrete finished room. -/
theorem c3_finished_snapshot_witness :
    ({ activeRoom demoProblemA with is_finished := true } : Room).is_finished
      = true ∧
    (checkAnswerPatch { activeRoom demoProblemA with is_finished := true } false
        "host-1" (Answer.str "A") demoProblemB = none ∧
      checkAnswerPatchV2 { activeRoom demoProblemA with is_finished := true } false
        "host-1" (Answer.str "A") demoProblemB = none) :=
  ⟨rfl, c3_finished_snapshot_blocks_client_answer _ false "host-1"
    (Answer.str "A") demoProblemB rfl⟩

/-- A creation request asking for a goal score of 25. -/
def c7req25 : CreateReq :=
  { host_id := some "host-1", host_name := some "Hosty", goal_score := some 25,
    room_code := some "ABCD1234" }

/-- Claim C7, counterexample: the server enforces no upper bound on
`goal_score` — a request with `goal_score = 25` (outside the claimed [1,20])
is answered 201 and the room is created with goal 25, not rejected 400. -/
theorem c7_counterexample_goal_25_created :
    (createRoom c7req25 [] 0 0 0 0 "room-9" "t0").status = 201 ∧
    (createRoom c7req25 [] 0 0 0 0 "room-9" "t0").goalScore = some 25 := by
  decide

/-- Claim C7, amended: with a present host id and room code, creation fails
400 when the upper-cased code is not 8 alphanumeric characters, 409 when the
code already exists, 400 when a provided nonzero integer goal score is below
1 — and succeeds (201) for every integer goal score at least 1, with no upper
bound (the [1,20] cap lives only in the dashboard client `handleCreateRoom`,
which rejects out-of-range values before any request is sent). -/
theorem c7_create_validation :
    (∀ (h hn c newId now : String) (g : Option Int) (existing : List String)
        (t : Fin 3) (li : Fin 26) (ni : Fin 10) (wi : Fin 10),
      h ≠ "" → c ≠ "" → isValidRoomCode (jsToUpper c) = false →
      (createRoom ⟨some h, some hn, g, some c⟩ existing t li ni wi newId
        now).status = 400) ∧
    (∀ (h hn c newId now : String) (g : Option Int) (existing : List String)
        (t : Fin 3) (li : Fin 26) (ni : Fin 10) (wi : Fin 10),
      h ≠ "" → c ≠ "" → isValidRoomCode (jsToUpper c) = true →
      existing.contains (jsToUpper c) = true →
      (createRoom ⟨some h, some hn, g, some c⟩ existing t li ni wi newId
        now).status = 409) ∧
    (∀ (h hn c newId now : String) (g : Int) (existing : List String)
        (t : Fin 3) (li : Fin 26) (ni : Fin 10) (wi : Fin 10),
      h ≠ "" → c ≠ "" → isValidRoomCode (jsToUpper c) = true →
      existing.contains (jsToUpper c) = false → g ≠ 0 → g < 1 →
      (createRoom ⟨some h, some hn, some g, some c⟩ existing t li ni wi newId
        now).status = 400) ∧
    (∀ (h hn c newId now : String) (g : Int) (existing : List String)
        (t : Fin 3) (li : Fin 26) (ni : Fin 10) (wi : Fin 10),
      h ≠ "" → c ≠ "" → isValidRoomCode (jsToUpper c) = true →
      existing.contains (jsToUpper c) = false → 1 ≤ g →
      (createRoom ⟨some h, some hn, some g, some c⟩ existing t li ni wi newId
        now).status = 201 ∧
      (createRoom ⟨some h, some hn, some g, some c⟩ existing t li ni wi newId
        now).goalScore = some g) := by
  refine ⟨?_, ?_, ?_, ?_⟩
  · intro h hn c newId now g existing t li ni wi hh hc hv
    simp [createRoom, CreateResult.status, hh, hc, hv]
  · intro h hn c newId now g existing t li ni wi hh hc hv hex
    have hmem : jsToUpper c ∈ existing := by simpa using hex
    simp [createRoom, CreateResult.status, hh, hc, hv, hmem]
  · intro h hn c newId now g existing t li ni wi hh hc hv hex hg0 hlt
    have hmem : jsToUpper c ∉ existing := by simpa using hex
    simp [createRoom, CreateResult.status, hh, hc, hv, hmem, hg0, hlt]
  · intro h hn c newId now g existing t li ni wi hh hc hv hex hg
    have hmem : jsToUpper c ∉ existing := by simpa using hex
    have hg0 : g ≠ 0 := by omega
    have hlt : ¬ (g < 1) := by omega
    simp [createRoom, CreateResult.status, CreateResult.goalScore, hh, hc, hv,
      hmem, hg0, hlt]

/-- Witness for the C7 amended theorem: one concrete request per branch. -/
theorem c7_create_validation_witness :
    (createRoom ⟨some "host-1", some "N", some 5, some "AB.D1234"⟩ [] 0 0 0 0
      "i" "t").status = 400 ∧
    (createRoom ⟨some "host-1", some "N", some 5, some "ABCD1234"⟩ ["ABCD1234"]
      0 0 0 0 "i" "t").status = 409 ∧
    (createRoom ⟨some "host-1", some "N", some (-2), some "ABCD1234"⟩ [] 0 0 0 0
      "i" "t").status = 400 ∧
    ((createRoom ⟨some "host-1", some "N", some 7, some "ABCD1234"⟩ [] 0 0 0 0
      "i" "t").status = 201 ∧
     (createRoom ⟨some "host-1", some "N", some 7, some "ABCD1234"⟩ [] 0 0 0 0
      "i" "t").goalScore = some 7) :=
  ⟨c7_create_validation.1 "host-1" "N" "AB.D1234" "i" "t" (some 5) [] 0 0 0 0
      (by decide) (by decide) (by decide),
   c7_create_validation.2.1 "host-1" "N" "ABCD1234" "i" "t" (some 5)
      ["ABCD1234"] 0 0 0 0 (by decide) (by decide) (by decide) (by decide),
   c7_create_validation.2.2.1 "host-1" "N" "ABCD1234" "i" "t" (-2) [] 0 0 0 0
      (by decide) (by decide) (by decide) (by decide) (by decide) (by decide),
   c7_create_validation.2.2.2 "host-1" "N" "ABCD1234" "i" "t" 7 [] 0 0 0 0
      (by decide) (by decide) (by decide) (by decide) (by decide)⟩

/-- An active room in which the previous problem was solved by the guest. -/
def c8room : Room :=
  { activeRoom demoProblemA with last_solved_by := some "guest-1" }

/-- Claim C8, counterexample: skip does NOT clear `last_solved_by` — the
part_001 `handleSkip` writes `last_solved_by: undefined`, which
`JSON.stringify` drops from the body (and the `page.tsx` variant never writes
the key at all), so the server merge leaves the old value in place. -/
theorem c8_counterexample_last_solved_by_not_cleared :
    c8room.is_started = true ∧ c8room.is_finished = false ∧
    (applyPut c8room (skipPatch true demoProblemB)).last_solved_by
      = some "guest-1" := by
  decide

/-- Claim C8, amended: for an active room, skip replaces `current_problem`
with the freshly generated one and sets the skipping player's flag, leaving
the scores and every other field — including `last_solved_by`, which is not
cleared — unchanged. -/
theorem c8_skip_frame (r : Room) (isHostUser : Bool) (np : Problem)
    (_hs : r.is_started = true) (_hf : r.is_finished = false) :
    (applyPut r (skipPatch isHostUser np)).current_problem = some np ∧
    (applyPut r (skipPatch isHostUser np)).last_solved_by = r.last_solved_by ∧
    (applyPut r (skipPatch isHostUser np)).host_score = r.host_score ∧
    (applyPut r (skipPatch isHostUser np)).guest_score = r.guest_score ∧
    (applyPut r (skipPatch isHostUser np)).host_skipped
      = (if isHostUser then true else r.host_skipped) ∧
    (applyPut r (skipPatch isHostUser np)).guest_skipped
      = (if isHostUser then r.guest_skipped else true) ∧
    (applyPut r (skipPatch isHostUser np)).is_started = r.is_started ∧
    (applyPut r (skipPatch isHostUser np)).is_finished = r.is_finished ∧
    (applyPut r (skipPatch isHostUser np)).host_given_up = r.host_given_up ∧
    (applyPut r (skipPatch isHostUser np)).guest_given_up = r.guest_given_up ∧
    (applyPut r (skipPatch isHostUser np)).goal_score = r.goal_score ∧
    (applyPut r (skipPatch isHostUser np)).host_id = r.host_id ∧
    (applyPut r (skipPatch isHostUser np)).guest_id = r.guest_id ∧
    (applyPut r (skipPatch isHostUser np)).room_code = r.room_code := by
  cases isHostUser <;> simp [applyPut, skipPatch]

/-- Witness for the C8 amended theorem at a concrete active room. -/
theorem c8_skip_frame_witness :
    (activeRoom demoProblemA).is_started = true ∧
    (activeRoom demoProblemA).is_finished = false ∧
    ((applyPut (activeRoom demoProblemA)
        (skipPatch true demoProblemB)).current_problem = some demoProblemB ∧
     (applyPut (activeRoom demoProblemA)
        (skipPatch true demoProblemB)).last_solved_by
       = (activeRoom demoProblemA).last_solved_by) :=
  ⟨rfl, rfl,
    (c8_skip_frame (activeRoom demoProblemA) true demoProblemB rfl rfl).1,
    (c8_skip_frame (activeRoom demoProblemA) true demoProblemB rfl rfl).2.1⟩

/-- Claim C9, counterexample: joining a room whose guest slot is taken is
rejected with HTTP 400 ("Room is already full"), not with the claimed 409
Conflict; the room is left unmodified. -/
theorem c9_counterexample_full_room_join_is_400 :
    lobbyFullRoom.guest_id ≠ "" ∧
    joinRoom lobbyFullRoom "guest-2" "Newbie" = (400, lobbyFullRoom) ∧
    (400 : Nat) ≠ 409 := by
  decide

/-- Claim C9, amended: every join failure — guest already set, self-join,
room already started, room already finished — responds with HTTP 400 and
leaves the room unmodified. -/
theorem c9_join_failures_400_no_write (r : Room) (gid gname : String)
    (hfail : r.guest_id ≠ "" ∨ r.host_id = gid ∨ r.is_started = true ∨
      r.is_finished = true) :
    joinRoom r gid gname = (400, r) := by
  rcases hfail with h | h | h | h <;> simp [joinRoom, h]

/-- Witness for the C9 amended theorem on the full lobby room. -/
theorem c9_join_failures_witness :
    lobbyFullRoom.guest_id ≠ "" ∧
    joinRoom lobbyFullRoom "guest-9" "G9" = (400, lobbyFullRoom) :=
  ⟨by decide,
    c9_join_failures_400_no_write lobbyFullRoom "guest-9" "G9"
      (Or.inl (by decide))⟩

/-- Claim C10: a creation request whose `goal_score` is absent, JSON null, or
0 (all falsy, so `goal_score || 10` yields 10) succeeds — given an otherwise
valid request — and the created room's `goal_score` is 10. -/
theorem c10_goal_score_defaults_to_ten
    (h hn c newId now : String) (g : Option Int) (existing : List String)
    (t : Fin 3) (li : Fin 26) (ni : Fin 10) (wi : Fin 10)
    (hh : h ≠ "") (hc : c ≠ "") (hv : isValidRoomCode (jsToUpper c) = true)
    (hex : existing.contains (jsToUpper c) = false)
    (hg : g = none ∨ g = some 0) :
    (createRoom ⟨some h, some hn, g, some c⟩ existing t li ni wi newId
      now).status = 201 ∧
    (createRoom ⟨some h, some hn, g, some c⟩ existing t li ni wi newId
      now).goalScore = some 10 := by
  have h10 : ¬ ((10 : Int) < 1) := by omega
  have hmem : jsToUpper c ∉ existing := by simpa using hex
  rcases hg with hg | hg <;> subst hg <;>
    simp [createRoom, CreateResult.status, CreateResult.goalScore, hh, hc, hv,
      hmem, h10]

/-- Witness for C10 at a concrete request with `goal_score` absent. -/
theorem c10_goal_defaults_witness :
    (createRoom ⟨some "host-1", some "Hosty", none, some "ABCD1234"⟩ [] 0 0 0 0
      "room-2" "t1").status = 201 ∧
    (createRoom ⟨some "host-1", some "Hosty", none, some "ABCD1234"⟩ [] 0 0 0 0
      "room-2" "t1").goalScore = some 10 :=
  c10_goal_score_defaults_to_ten "host-1" "Hosty" "ABCD1234" "room-2" "t1"
    none [] 0 0 0 0 (by decide) (by decide) (by decide) (by decide)
    (Or.inl rfl)
